import Mathlib

/-!
Verification of the Season KPI Aggregation & Decline-Detection Engine of the
tv-series-dropoff-analysis repository, against its natural-language
specification.

The repository's executable core is split between:
* `qa/validate.py` — the validation suite, including the reference
  reimplementation of the shark-jump rule (Check 19) and the grain checks;
* `pipeline/03_generate_qa_workbook.py` — the QA workbook cross-checks
  (manual weighted-rating recomputation, shark-jump sanity flags);
* `pipeline/01_subset_imdb.py` — ingestion/cleaning;
* `qa/fixtures/generate_synthetic.py` — the synthetic fixture generator;
* `sql/02_season_kpis.sql`, `sql/03_shark_jump.sql`, `sql/04_durability.sql`
  — the SQL that actually produces the derived tables.  These SQL files are
  not available; where a claim needs them, the corresponding definition is
  modelled from the spec (its doc comment starts with `Modelled from the
  spec:`).

Numbers: ratings are IMDb decimals, embedded as `ℚ`; vote counts and season
numbers are embedded as `Int` (the CSV columns are cast to int by the code).
-/

namespace TvDropoff

/-- A cleaned episode row: the columns of `episodes_filtered.csv`
(`EPISODES_FILTERED_COLS` in `pipeline/config.py`; spec §3 "Episode"). -/
structure Episode where
  episode_tconst : String
  show_tconst : String
  season_num : Int
  episode_num : Int
  avg_rating : ℚ
  num_votes : Int
deriving Repr, DecidableEq

/-- Sum of `num_votes` over a list of episodes. -/
def sumVotes (eps : List Episode) : Int :=
  (eps.map (·.num_votes)).sum

/-- Sum of `avg_rating * num_votes` over a list of episodes
(the `rating_x_votes` column of the workbook's WeightedRatingCheck tab). -/
def sumRatingVotes (eps : List Episode) : ℚ :=
  (eps.map (fun e => e.avg_rating * (e.num_votes : ℚ))).sum

/-- Modelled from the spec: `weighted_rating` of a season
(spec §3) = Σ(rating×votes) / Σ(votes) over the season's episodes.
The producing SQL (`sql/02_season_kpis.sql`) is not in the sources;
this is the spec's formula. Division by zero yields the `ℚ` junk value 0;
the zero-vote case is treated separately (claims C4, C5). -/
def weightedRating (eps : List Episode) : ℚ :=
  sumRatingVotes eps / ((sumVotes eps : ℚ))

/-- One row of `agg_season_kpis.csv` restricted to the fields the shark-jump
logic reads (`qa/validate.py`, Check 19). -/
structure KpiRow where
  season_num : Int
  weighted_rating : ℚ
  rolling_3_season_avg : ℚ
  series_avg : ℚ
deriving Repr, DecidableEq

/-- A season is "below" when `rolling_3_season_avg < series_avg`
(`qa/validate.py` line 438; spec §4.3). -/
def isBelow (r : KpiRow) : Bool :=
  decide (r.rolling_3_season_avg < r.series_avg)

/-- The `below_seasons` list of `qa/validate.py` Check 19 (lines 436-439):
season numbers of the rows (already season_num-sorted) whose rolling average
is strictly below the series average. -/
def belowSeasons (rows : List KpiRow) : List Int :=
  (rows.filter isBelow).map (·.season_num)

/-- The adjacency test of `qa/validate.py` Check 19 (lines 448-450):
`idx1 = all_seasons.index(s1)` and
`idx1 + 1 < len(all_seasons) and all_seasons[idx1 + 1] == s2`.
`List.get?` returns `none` out of range, matching the `idx1 + 1 < len` guard. -/
def adjacentInSeasons (allSeasons : List Int) (s1 s2 : Int) : Bool :=
  allSeasons.get? (List.indexOf s1 allSeasons + 1) == some s2

/-- The `for i in range(len(below_seasons) - 1)` loop of `qa/validate.py`
Check 19 (lines 442-452): walk consecutive entries of the below list and
return the first `s1` whose successor `s2` is adjacent in the season list. -/
def firstAdjacentBelowPair (allSeasons : List Int) : List Int → Option Int
  | s1 :: s2 :: rest =>
    if adjacentInSeasons allSeasons s1 s2 then some s1
    else firstAdjacentBelowPair allSeasons (s2 :: rest)
  | _ => none

/-- The `expected_sj` value computed by the validator's reference
reimplementation of the shark-jump rule (`qa/validate.py` Check 19,
lines 436-452), on a show's season_num-sorted KPI rows. -/
def expectedSharkJump (rows : List KpiRow) : Option Int :=
  firstAdjacentBelowPair (rows.map (·.season_num)) (belowSeasons rows)

/-- Modelled from the spec (§4.3): scan the season_num-sorted sequence for
the first adjacent pair of seasons both marked "below"; report the EARLIER
season of that pair; `none` when no such pair exists.  Adjacency is
positional in the sorted sequence (the reading consistent with §3's
"window by sorted position" rule and with the validator's code); the
"difference exactly 1 in season_num value" reading is settled by claim C2. -/
def specSharkJumpScan : List KpiRow → Option Int
  | r1 :: r2 :: rest =>
    if isBelow r1 && isBelow r2 then some r1.season_num
    else specSharkJumpScan (r2 :: rest)
  | _ => none

/-- All positionally adjacent pairs of rows that are both "below", in scan
order. -/
def belowPairs (rows : List KpiRow) : List (KpiRow × KpiRow) :=
  (rows.zip rows.tail).filter (fun p => isBelow p.1 && isBelow p.2)

/-- Per-row acceptance rule for a non-null `shark_jump_season` in
`qa/validate.py` Check 17 (lines 374-384): NULL passes, a value passes only
when `int(sj) >= 3`. -/
def sharkSeasonValueCheck : Option Int → Bool
  | none => true
  | some s => decide (3 ≤ s)

/-- The `flag_suspicious` column of the workbook's SharkJumpSanity tab
(`pipeline/03_generate_qa_workbook.py` lines 352-354): a non-null
`shark_jump_season` equal to 1 or 2 is flagged. -/
def flagSuspicious : Option Int → Bool
  | none => false
  | some s => s == 1 || s == 2

/- ── Spec-modelled engine (the missing SQL) ─────────────────────────── -/

/-- Mean of a list of rationals (used for the rolling window and the
simple series average); 0 on the empty list. -/
def qmean (l : List ℚ) : ℚ :=
  l.sum / (l.length : ℚ)

/-- Modelled from the spec (§4.1/§4.2): group a season_num-sorted episode
list of one show into its seasons (runs of equal `season_num`).  Stands in
for the SQL `GROUP BY show_tconst, season_num`. -/
def groupBySeason : List Episode → List (List Episode)
  | [] => []
  | e :: rest =>
    match groupBySeason rest with
    | [] => [[e]]
    | g :: gs =>
      if g.head?.elim true (fun x => e.season_num == x.season_num)
      then (e :: g) :: gs
      else [e] :: g :: gs

/-- Modelled from the spec (§3): the trailing window of
`rolling_3_season_avg` at position `i` — the current value and up to two
immediately preceding values in sorted position. -/
def rollingWindow (wrs : List ℚ) (i : Nat) : List ℚ :=
  (wrs.take (i + 1)).drop (i + 1 - 3)

/-- Modelled from the spec (§4.2): per-position rolling 3-season averages of
a show's per-season weighted ratings. -/
def rollingAvgs (wrs : List ℚ) : List ℚ :=
  (List.range wrs.length).map (fun i => qmean (rollingWindow wrs i))

/-- Modelled from the spec (§4.2): `series_avg` = Σ(rating×votes) over all
the show's episodes / Σ(votes) over all the show's episodes (the spec
stresses this is NOT a simple average of per-season weighted ratings). -/
def seriesAvgWeighted (eps : List Episode) : ℚ :=
  sumRatingVotes eps / ((sumVotes eps : ℚ))

/-- Variant series average: the unweighted mean of the per-season weighted
ratings.  Spec §4.2 explicitly rules this formula out, but it is the one
that reproduces every designed shark-jump outcome documented in
`qa/fixtures/generate_synthetic.py` (Simpsons S6, SpongeBob S5,
Family Guy null, TWD S5); kept alongside the spec's formula for
comparison (claim C7). -/
def seriesAvgSimple (eps : List Episode) : ℚ :=
  qmean ((groupBySeason eps).map weightedRating)

/-- Modelled from the spec (§4.1/§4.2): the KPI rows of one show, built from
its season_num-sorted episodes, with a pluggable series-average formula. -/
def specSeasonKpis (seriesFn : List Episode → ℚ) (eps : List Episode) : List KpiRow :=
  let gs := groupBySeason eps
  let wrs := gs.map weightedRating
  let sa := seriesFn eps
  (gs.zip (rollingAvgs wrs)).map
    (fun p => ⟨p.1.head?.elim 0 (·.season_num), weightedRating p.1, p.2, sa⟩)

/-- Modelled from the spec (§4.2+§4.3): full shark-jump detection for one
show's season_num-sorted episodes, with the spec's vote-weighted
`series_avg`. -/
def specSharkJumpWeighted (eps : List Episode) : Option Int :=
  specSharkJumpScan (specSeasonKpis seriesAvgWeighted eps)

/-- Shark-jump detection as `specSharkJumpWeighted` but with the simple-mean
series average (see `seriesAvgSimple`). -/
def specSharkJumpSimple (eps : List Episode) : Option Int :=
  specSharkJumpScan (specSeasonKpis seriesAvgSimple eps)

/-- The known show ids, in the order of `SHOW_IDS` in `pipeline/config.py`. -/
def SHOW_IDS : List String :=
  ["tt0096697", "tt0206512", "tt0182576", "tt1520211"]

/-- Modelled from the spec (§4.3/§6): the ShowShark output has one row per
known show id, whatever the per-show detection outcome `sharkOf` is. -/
def mkShowSharkRows (sharkOf : String → Option Int) : List (String × Option Int) :=
  SHOW_IDS.map (fun s => (s, sharkOf s))

/-- Modelled from the spec (§4.4/§6): the ShowDurability output has one row
per known show id. -/
def mkShowDurabilityRows (durOf : String → Int) : List (String × Int) :=
  SHOW_IDS.map (fun s => (s, durOf s))

/-- The one-row-per-show grain condition of `qa/validate.py` Checks 17/18
(lines 364-371, 396-403): `len(df) == len(set(shows))` and
`set(shows) == set(SHOW_IDS)`, on the list of show ids of the output rows. -/
def oneRowPerShowCheck (ids : List String) : Bool :=
  (ids.dedup.length == ids.length)
    && SHOW_IDS.all (fun s => ids.contains s)
    && ids.all (fun s => SHOW_IDS.contains s)

/- ── Workbook cross-check (03_generate_qa_workbook.py) ──────────────── -/

/-- The summary row fields of the workbook's WeightedRatingCheck tab that
carry the verdict (`pipeline/03_generate_qa_workbook.py` lines 231-267). -/
structure WrSummary where
  manual_weighted_rating : Option ℚ
  diff : Option ℚ
  passed : Bool
deriving Repr, DecidableEq

/-- The summary computation of `build_weighted_rating_check`
(`pipeline/03_generate_qa_workbook.py` lines 231-248) for the spot-checked
season's episodes `eps` against the pipeline's value `sqlWr`:
if `sum_votes == 0` the row carries `NA` values and a failed status;
otherwise the manual weighted rating is recomputed and compared with
tolerance 0.01. -/
def buildWeightedRatingCheck (eps : List Episode) (sqlWr : ℚ) : WrSummary :=
  let sumRxV := sumRatingVotes eps
  let sumV := sumVotes eps
  if sumV = 0 then ⟨none, none, false⟩
  else
    let manualWr := sumRxV / ((sumV : ℚ))
    ⟨some manualWr, some |manualWr - sqlWr|, decide (|manualWr - sqlWr| ≤ 1 / 100)⟩

/- ── Ingestion cleaning (01_subset_imdb.py, sample mode) ────────────── -/

/-- A raw episode row before cleaning: the nullable columns of the sample
fixture CSV as read by `run_sample_mode` (`pipeline/01_subset_imdb.py`). -/
structure RawEpisode where
  episode_tconst : String
  show_tconst : String
  season_num : Option Int
  episode_num : Option Int
  avg_rating : Option ℚ
  num_votes : Option Int
deriving Repr, DecidableEq

/-- Cast a raw row that survived all the `dropna` filters to a cleaned
episode (the `astype` casts of `run_sample_mode`). -/
def toEpisode (r : RawEpisode) : Episode :=
  ⟨r.episode_tconst, r.show_tconst, r.season_num.getD 0, r.episode_num.getD 0,
   r.avg_rating.getD 0, r.num_votes.getD 0⟩

/-- The row-cleaning chain of `run_sample_mode`
(`pipeline/01_subset_imdb.py` lines 306-355): drop NULL/0 season_num, drop
NULL episode_num, drop NULL avg_rating, drop NULL num_votes, count the
zero-vote episodes (logged with a NOTE and KEPT, lines 339-342), then keep
only episodes whose tconst is in the valid (tvEpisode) basics set.
Returns the cleaned episodes and the logged zero-vote count; the chain has
no failure outcome for row data. -/
def cleanSampleEpisodes (validTconsts : List String) (rows : List RawEpisode) :
    List Episode × Nat :=
  let s1 := rows.filter (fun r => r.season_num.isSome)
  let s2 := s1.filter (fun r => r.season_num.getD 0 != 0)
  let s3 := s2.filter (fun r => r.episode_num.isSome)
  let s4 := s3.filter (fun r => r.avg_rating.isSome)
  let s5 := s4.filter (fun r => r.num_votes.isSome)
  let zeroVotes := (s5.filter (fun r => r.num_votes.getD 0 == 0)).length
  let s6 := s5.filter (fun r => validTconsts.contains r.episode_tconst)
  (s6.map toEpisode, zeroVotes)

/- ── Check accounting (qa/validate.py CheckRunner) ──────────────────── -/

/-- The pass/fail/warn counters of `CheckRunner` (`qa/validate.py`
lines 42-64). -/
structure CheckRunner where
  failures : Nat
  warnings : Nat
  total : Nat
deriving Repr, DecidableEq

/-- One recorded validation event: `CheckRunner.check` with its `passed`
argument, or `CheckRunner.warn` with its `ok` argument. -/
inductive CheckEvent
  | check (passed : Bool)
  | warn (ok : Bool)
deriving Repr, DecidableEq

/-- The state update of `CheckRunner.check` / `CheckRunner.warn`
(`qa/validate.py` lines 50-64): `check` increments `failures` on a failed
check, `warn` increments only `warnings` when not ok; both bump `total`. -/
def stepRunner (st : CheckRunner) : CheckEvent → CheckRunner
  | .check p => ⟨if p then st.failures else st.failures + 1, st.warnings, st.total + 1⟩
  | .warn o => ⟨st.failures, if o then st.warnings else st.warnings + 1, st.total + 1⟩

/-- Run a validation session: fold the recorded events over a fresh
`CheckRunner` (`validate`, `qa/validate.py` lines 491-522). -/
def runChecks (evs : List CheckEvent) : CheckRunner :=
  evs.foldl stepRunner ⟨0, 0, 0⟩

/-- The process exit status of `main` (`qa/validate.py` line 529):
`sys.exit(1 if failures > 0 else 0)`. -/
def exitStatus (evs : List CheckEvent) : Nat :=
  if 0 < (runChecks evs).failures then 1 else 0

/-- Number of events that were recorded via `check` with `passed = False`. -/
def failedCheckCount (evs : List CheckEvent) : Nat :=
  (evs.filter (fun e => match e with | .check false => true | _ => false)).length

/-- Check 9, row-count parity between episodes_filtered and episodes_basics,
is recorded via `warn` (`qa/validate.py` lines 203-215). -/
def check9RowCountParity (nFiltered nBasics : Nat) : CheckEvent :=
  .warn (nFiltered == nBasics)

/- ── Synthetic fixture generator (qa/fixtures/generate_synthetic.py) ── -/

/-- Season configurations `(n_episodes, target_rating, base_votes)` of
The Simpsons in `SHOW_SEASONS` (gradual decline; designed shark-jump at S6
per the fixture's comment). -/
def simpsonsSeasons : List (Nat × ℚ × Nat) :=
  [(8, 8.5, 30000), (8, 8.3, 28000), (7, 8.0, 25000), (7, 7.7, 22000),
   (6, 7.3, 18000), (6, 7.0, 15000), (5, 6.7, 10000), (5, 6.4, 8000)]

/-- SpongeBob's season configurations (sharp drop after S3; designed
shark-jump at S5). -/
def spongebobSeasons : List (Nat × ℚ × Nat) :=
  [(8, 8.5, 20000), (7, 8.7, 22000), (7, 8.8, 25000), (6, 6.5, 12000),
   (6, 6.2, 10000), (5, 6.0, 8000)]

/-- Family Guy's season configurations (dip at S3 then recovery; designed
outcome: NO shark-jump). -/
def familyGuySeasons : List (Nat × ℚ × Nat) :=
  [(7, 8.2, 25000), (7, 8.5, 27000), (6, 7.8, 15000), (6, 9.2, 30000),
   (6, 8.3, 22000), (5, 8.0, 18000), (5, 7.8, 15000)]

/-- The Walking Dead's season configurations (late decline; designed
shark-jump at S5). -/
def twdSeasons : List (Nat × ℚ × Nat) :=
  [(8, 8.8, 35000), (8, 8.5, 32000), (7, 8.2, 28000), (7, 7.5, 20000),
   (6, 6.5, 12000), (6, 6.0, 8000)]

/-- `SHOW_SEASONS` of `qa/fixtures/generate_synthetic.py` (lines 41-77). -/
def SHOW_SEASONS : List (String × List (Nat × ℚ × Nat)) :=
  [("tt0096697", simpsonsSeasons), ("tt0206512", spongebobSeasons),
   ("tt0182576", familyGuySeasons), ("tt1520211", twdSeasons)]

/-- 4-digit zero-padded decimal rendering, i.e. Python's `f"{n:04d}"` for
`n < 10000`. -/
def pad4 (n : Nat) : String :=
  String.mk [Nat.digitChar (n / 1000 % 10), Nat.digitChar (n / 100 % 10),
             Nat.digitChar (n / 10 % 10), Nat.digitChar (n % 10)]

/-- The synthetic id `f"tt999{ep_counter:04d}"` of `generate_episodes`. -/
def synthTconst (n : Nat) : String :=
  "tt999" ++ pad4 n

/-- `np.round(x, 1)` modelled over `ℚ` (round to one decimal; numpy's
half-even tie-break is immaterial here because the clip to [1, 10] alone
decides every property proved about the ratings). -/
def roundTenth (x : ℚ) : ℚ :=
  ((round (10 * x) : ℤ) : ℚ) / 10

/-- `np.clip(x, 1.0, 10.0)` of `generate_episodes` (line 107). -/
def clipRating (x : ℚ) : ℚ :=
  min 10 (max 1 x)

/-- `vote_lo = max(500, base_votes - 5000)` (line 110). -/
def voteLo (base : Nat) : Nat :=
  max 500 (base - 5000)

/-- `vote_hi = base_votes + 5000` (line 111). -/
def voteHi (base : Nat) : Nat :=
  base + 5000

/-- `RNG.integers(vote_lo, vote_hi)` modelled as an arbitrary draw mapped
into the half-open range `[vote_lo, vote_hi)`: the PCG64 stream itself is
opaque, but every value it can produce has this form. -/
def drawVotes (vd : Nat → Nat) (k base : Nat) : Nat :=
  voteLo base + vd k % (voteHi base - voteLo base)

/-- The episodes generated for one season by `generate_episodes`
(`qa/fixtures/generate_synthetic.py` lines 102-125): `cfg.1` episodes with
ids `tt999{c0:04d}`, `tt999{c0+1:04d}`, …, 1-based episode numbers,
ratings `clip(round(normal(target, 0.3), 1), 1, 10)` — the normal draw is
modelled as `target + rd k` for an arbitrary noise stream `rd` — and votes
drawn from `[vote_lo, vote_hi)`. -/
def mkSeasonEpisodes (tc : String) (sn c0 : Nat) (cfg : Nat × ℚ × Nat)
    (rd : Nat → ℚ) (vd : Nat → Nat) : List Episode :=
  (List.range cfg.1).map (fun j =>
    ⟨synthTconst (c0 + j), tc, (sn : Int), ((j + 1 : Nat) : Int),
     clipRating (roundTenth (cfg.2.1 + rd (c0 + j))),
     ((drawVotes vd (c0 + j) cfg.2.2 : Nat) : Int)⟩)

/-- Episodes of one show: seasons enumerated from 1 (the
`enumerate(seasons, start=1)` loop), threading the global episode counter. -/
def mkShowEpisodes (tc : String) (rd : Nat → ℚ) (vd : Nat → Nat) :
    Nat → Nat → List (Nat × ℚ × Nat) → List Episode
  | _, _, [] => []
  | sn, c0, cfg :: rest =>
    mkSeasonEpisodes tc sn c0 cfg rd vd ++ mkShowEpisodes tc rd vd (sn + 1) (c0 + cfg.1) rest

/-- Total number of episodes configured for one show. -/
def showEpisodeCount (cfgs : List (Nat × ℚ × Nat)) : Nat :=
  (cfgs.map (·.1)).sum

/-- Total number of episodes configured across all shows. -/
def allEpisodeCount (shows : List (String × List (Nat × ℚ × Nat))) : Nat :=
  (shows.map (fun p => showEpisodeCount p.2)).sum

/-- Episodes of all configured shows, threading the episode counter across
shows exactly as the single `ep_counter` of `generate_episodes` does. -/
def mkAllEpisodes (rd : Nat → ℚ) (vd : Nat → Nat) :
    Nat → List (String × List (Nat × ℚ × Nat)) → List Episode
  | _, [] => []
  | c0, (tc, cfgs) :: rest =>
    mkShowEpisodes tc rd vd 1 c0 cfgs ++ mkAllEpisodes rd vd (c0 + showEpisodeCount cfgs) rest

/-- `generate_episodes` of `qa/fixtures/generate_synthetic.py`
(lines 96-127), parameterised by the rating-noise and vote draws of the
seeded RNG (`ep_counter` starts at 1). -/
def generateEpisodes (rd : Nat → ℚ) (vd : Nat → Nat) : List Episode :=
  mkAllEpisodes rd vd 1 SHOW_SEASONS

/- ── Phase 1 check conditions (qa/validate.py) ──────────────────────── -/

/-- Check 4's rating condition (`qa/validate.py` lines 140-149): every
`avg_rating` within [1.0, 10.0] (the code tests the column min and max,
which is the same condition row-wise). -/
def ratingRangeCheck (eps : List Episode) : Bool :=
  eps.all (fun e => decide (1 ≤ e.avg_rating) && decide (e.avg_rating ≤ 10))

/-- Check 4's vote condition (`qa/validate.py` lines 151-157): every
`num_votes` non-negative. -/
def votesRangeCheck (eps : List Episode) : Bool :=
  eps.all (fun e => decide (0 ≤ e.num_votes))

/-- Check 2 (`qa/validate.py` lines 113-120): no duplicated
`episode_tconst`. -/
def uniqueTconstCheck (eps : List Episode) : Bool :=
  (eps.map (·.episode_tconst)).dedup.length == (eps.map (·.episode_tconst)).length

/-- Check 11, the fabrication check (`qa/validate.py` lines 234-243): every
`episode_tconst` starts with "tt999". -/
def fabricationCheck (eps : List Episode) : Bool :=
  eps.all (fun e => ("tt999").data.isPrefixOf e.episode_tconst.data)

/-- The by-construction row properties claimed for the generator's output:
synthetic id prefix, clipped rating, vote floor 500, 1-based season and
episode numbers. -/
def generatedRowOk (e : Episode) : Bool :=
  ("tt999").data.isPrefixOf e.episode_tconst.data
    && decide (1 ≤ e.avg_rating) && decide (e.avg_rating ≤ 10)
    && decide (500 ≤ e.num_votes)
    && decide (1 ≤ e.season_num) && decide (1 ≤ e.episode_num)

/- ── Idealised fixture data (RNG noise set to zero) ─────────────────── -/

/-- One idealised fixture season: every episode exactly at the target
rating with exactly the base vote count. -/
def idealSeasonEpisodes (tc : String) (sn : Nat) (cfg : Nat × ℚ × Nat) : List Episode :=
  (List.range cfg.1).map (fun j =>
    ⟨synthTconst 0, tc, (sn : Int), ((j + 1 : Nat) : Int), cfg.2.1, (cfg.2.2 : Int)⟩)

/-- One idealised fixture show: the seasons of the configuration list,
numbered consecutively from the first argument (1 for a whole show). -/
def idealShowEpisodes (tc : String) : Nat → List (Nat × ℚ × Nat) → List Episode
  | _, [] => []
  | sn, cfg :: rest => idealSeasonEpisodes tc sn cfg ++ idealShowEpisodes tc (sn + 1) rest

/-- The idealised Family Guy fixture (claim C7's scenario: target ratings
8.2, 8.5, 7.8, 9.2, 8.3, 8.0, 7.8 over seven seasons). -/
def famGuyIdeal : List Episode :=
  idealShowEpisodes ("tt0182576") 1 familyGuySeasons

/-- The idealised Simpsons fixture. -/
def simpsonsIdeal : List Episode :=
  idealShowEpisodes ("tt0096697") 1 simpsonsSeasons

/-- The idealised SpongeBob fixture. -/
def spongebobIdeal : List Episode :=
  idealShowEpisodes ("tt0206512") 1 spongebobSeasons

/-- The idealised Walking Dead fixture. -/
def twdIdeal : List Episode :=
  idealShowEpisodes ("tt1520211") 1 twdSeasons

/- ── Concrete instances used by witnesses and counterexamples ───────── -/

/-- KPI rows of a show whose seasons 2 and 3 are below: the first adjacent
below pair is (2, 3). -/
def c1Rows : List KpiRow :=
  [⟨1, 9, 9, 5⟩, ⟨2, 4, 4, 5⟩, ⟨3, 4, 4, 5⟩]

/-- KPI rows of a show with a season-numbering gap: seasons 1, 2, 4, 5 with
seasons 2 and 4 below.  The pair (2, 4) is adjacent in the sorted sequence
but its season numbers differ by 2. -/
def gapRows : List KpiRow :=
  [⟨1, 6, 6, 5⟩, ⟨2, 4, 4, 5⟩, ⟨4, 4, 4, 5⟩, ⟨5, 6, 6, 5⟩]

/-- KPI rows whose first two seasons are below: the scan reports season 1. -/
def c3Rows : List KpiRow :=
  [⟨1, 4, 4, 5⟩, ⟨2, 4, 4, 5⟩, ⟨3, 9, 9, 5⟩]

/-- A three-season show (one episode per season, ratings 5, 8, 9, equal
votes) whose rolling averages of seasons 1 and 2 are both below the series
average 22/3: the detection rule yields season 1. -/
def c3Episodes : List Episode :=
  [⟨"tt9990001", "tt0096697", 1, 1, 5, 100⟩,
   ⟨"tt9990002", "tt0096697", 2, 1, 8, 100⟩,
   ⟨"tt9990003", "tt0096697", 3, 1, 9, 100⟩]

/-- A two-episode season with positive votes, for the weighted-rating
cross-check witness. -/
def c4Episodes : List Episode :=
  [⟨"tt9990011", "tt0206512", 2, 1, 8, 100⟩,
   ⟨"tt9990012", "tt0206512", 2, 2, 9, 300⟩]

/-- A raw fixture row with zero votes and all other fields valid. -/
def c5ZeroVoteRow : RawEpisode :=
  ⟨"tt9990021", "tt0096697", some 1, some 1, some 5, some 0⟩

/-- A basics set containing the zero-vote row's tconst. -/
def c5ValidTconsts : List String :=
  ["tt9990021"]

/-- A one-episode season with rating 2 and 10 votes. -/
def c8Episodes : List Episode :=
  [⟨"tt9990031", "tt1520211", 1, 1, 2, 10⟩]

/- ════════════════════════════ Theorems ═══════════════════════════════ -/

/- ── CheckRunner accounting (claim C9) ──────────────────────────────── -/

theorem foldl_stepRunner_failures (evs : List CheckEvent) :
    ∀ st : CheckRunner, (evs.foldl stepRunner st).failures = st.failures + failedCheckCount evs := by
  induction evs with
  | nil => intro st; simp [failedCheckCount]
  | cons e t ih =>
    intro st
    rw [List.foldl_cons, ih]
    cases e with
    | check p =>
      cases p
      all_goals simp [stepRunner, failedCheckCount, List.filter_cons]
      all_goals omega
    | warn o =>
      simp [stepRunner, failedCheckCount, List.filter_cons]

/-- C9: the validation run exits with status 0 iff no check recorded via
`CheckRunner.check` failed; an event recorded via `CheckRunner.warn` — such
as Check 9's row-count parity — leaves the failure count, and hence the
exit status, unchanged (it can only bump the warning count). -/
theorem claim_C9_exit_status (evs : List CheckEvent) :
    (exitStatus evs = 0 ↔ failedCheckCount evs = 0) ∧
    (∀ nFiltered nBasics : Nat,
      (runChecks (evs ++ [check9RowCountParity nFiltered nBasics])).failures
          = (runChecks evs).failures ∧
      (runChecks (evs ++ [check9RowCountParity nFiltered nBasics])).warnings
          = (runChecks evs).warnings + (if nFiltered == nBasics then 0 else 1) ∧
      exitStatus (evs ++ [check9RowCountParity nFiltered nBasics]) = exitStatus evs) := by
  have hfail : ∀ l : List CheckEvent, (runChecks l).failures = failedCheckCount l := by
    intro l
    rw [runChecks, foldl_stepRunner_failures]
    simp
  constructor
  · rw [exitStatus, hfail]
    split
    all_goals omega
  · intro nFiltered nBasics
    have hstep : runChecks (evs ++ [check9RowCountParity nFiltered nBasics])
        = stepRunner (runChecks evs) (check9RowCountParity nFiltered nBasics) := by
      rw [runChecks, runChecks, List.foldl_append, List.foldl_cons, List.foldl_nil]
    refine ⟨?_, ?_, ?_⟩
    · rw [hstep]; rfl
    · rw [hstep]
      simp only [check9RowCountParity, stepRunner]
      split <;> simp
    · rw [exitStatus, exitStatus, hstep]
      rfl

/- ── Output grain (claim C6) ────────────────────────────────────────── -/

theorem dedup_length_eq_iff (l : List String) :
    l.dedup.length = l.length ↔ l.Nodup := by
  constructor
  · intro h
    have hs := List.dedup_sublist l
    rw [← hs.eq_of_length h]
    exact List.nodup_dedup l
  · intro h
    rw [List.dedup_eq_self.2 h]

/-- C6: the validator's grain condition (Checks 17/18/20) holds on a list of
output show ids exactly when every known show id occurs exactly once and no
other id occurs; and the spec-modelled ShowShark / ShowDurability producers
satisfy it for every per-show outcome function. -/
theorem claim_C6_one_row_per_show :
    (∀ ids : List String, oneRowPerShowCheck ids = true ↔
      ((∀ s ∈ SHOW_IDS, ids.count s = 1) ∧ ∀ s ∈ ids, s ∈ SHOW_IDS)) ∧
    (∀ sharkOf : String → Option Int,
      oneRowPerShowCheck ((mkShowSharkRows sharkOf).map Prod.fst) = true) ∧
    (∀ durOf : String → Int,
      oneRowPerShowCheck ((mkShowDurabilityRows durOf).map Prod.fst) = true) := by
  have hids : ∀ ids : List String, oneRowPerShowCheck ids = true ↔
      (ids.Nodup ∧ (∀ s ∈ SHOW_IDS, s ∈ ids) ∧ ∀ s ∈ ids, s ∈ SHOW_IDS) := by
    intro ids
    simp only [oneRowPerShowCheck, Bool.and_eq_true, beq_iff_eq, List.all_eq_true,
      List.contains, List.elem_eq_mem, decide_eq_true_eq, dedup_length_eq_iff, and_assoc]
  refine ⟨?_, ?_, ?_⟩
  · intro ids
    rw [hids]
    constructor
    · rintro ⟨hnd, hcov, hsub⟩
      exact ⟨fun s hs => List.count_eq_one_of_mem hnd (hcov s hs), hsub⟩
    · rintro ⟨hcnt, hsub⟩
      refine ⟨?_, ?_, hsub⟩
      · rw [List.nodup_iff_count_le_one]
        intro a
        by_cases ha : a ∈ ids
        · rw [hcnt a (hsub a ha)]
        · rw [List.count_eq_zero_of_not_mem ha]
          omega
      · intro s hs
        have := hcnt s hs
        have hpos : 0 < ids.count s := by omega
        exact List.count_pos_iff.1 hpos
  · intro sharkOf
    have : (mkShowSharkRows sharkOf).map Prod.fst = SHOW_IDS := by
      simp [mkShowSharkRows, Function.comp_def]
    rw [this]
    decide
  · intro durOf
    have : (mkShowDurabilityRows durOf).map Prod.fst = SHOW_IDS := by
      simp [mkShowDurabilityRows, Function.comp_def]
    rw [this]
    decide

/- ── Weighted-rating cross-check (claim C4) ─────────────────────────── -/

/-- C4: for a season with positive total votes the workbook's manual
recomputation reproduces the spec's weighted rating Σ(rating×votes)/Σ(votes)
and the cross-check passes whenever the pipeline value equals it; for a
zero-vote season no division is performed — the summary row carries `NA`
(`none`) values and a failed status. -/
theorem claim_C4_weighted_rating_check (eps : List Episode) (sqlWr : ℚ) :
    (sumVotes eps ≠ 0 →
      (buildWeightedRatingCheck eps sqlWr).manual_weighted_rating = some (weightedRating eps) ∧
      (sqlWr = weightedRating eps → (buildWeightedRatingCheck eps sqlWr).passed = true)) ∧
    (sumVotes eps = 0 →
      (buildWeightedRatingCheck eps sqlWr).manual_weighted_rating = none ∧
      (buildWeightedRatingCheck eps sqlWr).passed = false) := by
  constructor
  · intro h
    constructor
    · simp [buildWeightedRatingCheck, weightedRating, h]
    · intro hw
      simp only [buildWeightedRatingCheck, if_neg h, hw, weightedRating, sub_self, abs_zero,
        decide_eq_true_eq]
      norm_num
  · intro h
    simp [buildWeightedRatingCheck, h]

theorem claim_C4_witness :
    sumVotes c4Episodes ≠ 0 ∧
      (buildWeightedRatingCheck c4Episodes (weightedRating c4Episodes)).passed = true :=
  ⟨by decide,
   ((claim_C4_weighted_rating_check c4Episodes (weightedRating c4Episodes)).1 (by decide)).2 rfl⟩

/- ── Zero-vote seasons do not abort the run (claim C5) ──────────────── -/

/-- C5 counterexample: a fixture row with zero votes and otherwise valid
fields passes the whole ingestion cleaning chain — it is RETAINED in the
output (with the zero-vote NOTE counter at 1), and the workbook cross-check
merely records a failed `NA` summary row for its season; no data-quality
error is raised anywhere. -/
theorem claim_C5_counterexample :
    cleanSampleEpisodes c5ValidTconsts [c5ZeroVoteRow] = ([toEpisode c5ZeroVoteRow], 1) ∧
    buildWeightedRatingCheck [toEpisode c5ZeroVoteRow] 0 = ⟨none, none, false⟩ :=
  ⟨rfl, rfl⟩

/-- C5 (amended): the pipeline does not fail on zero-vote seasons: every raw
row that survives the NULL/0 filters is kept by the ingestion cleaning even
when its vote count is zero (it is merely counted for the log NOTE), and the
workbook cross-check records a failed summary row for a zero-vote season
while returning normally. -/
theorem claim_C5_amended :
    (∀ (validTconsts : List String) (rows : List RawEpisode) (r : RawEpisode),
      r ∈ rows → r.season_num.isSome = true → r.season_num.getD 0 ≠ 0 →
      r.episode_num.isSome = true → r.avg_rating.isSome = true →
      r.num_votes = some 0 → validTconsts.contains r.episode_tconst = true →
      toEpisode r ∈ (cleanSampleEpisodes validTconsts rows).1 ∧
        1 ≤ (cleanSampleEpisodes validTconsts rows).2) ∧
    (∀ (eps : List Episode) (sqlWr : ℚ), sumVotes eps = 0 →
      (buildWeightedRatingCheck eps sqlWr).passed = false) := by
  constructor
  · intro validTconsts rows r hmem hseason hseason0 hep hrat hv hvalid
    have hvs : r.num_votes.isSome = true := by rw [hv]; rfl
    have h5 : r ∈ (((rows.filter (fun r => r.season_num.isSome)).filter
        (fun r => r.season_num.getD 0 != 0)).filter
        (fun r => r.episode_num.isSome)).filter (fun r => r.avg_rating.isSome) := by
      refine List.mem_filter.2 ⟨List.mem_filter.2 ⟨List.mem_filter.2 ⟨List.mem_filter.2
        ⟨hmem, hseason⟩, ?_⟩, hep⟩, hrat⟩
      simpa using hseason0
    have h6 : r ∈ ((((rows.filter (fun r => r.season_num.isSome)).filter
        (fun r => r.season_num.getD 0 != 0)).filter
        (fun r => r.episode_num.isSome)).filter (fun r => r.avg_rating.isSome)).filter
        (fun r => r.num_votes.isSome) :=
      List.mem_filter.2 ⟨h5, hvs⟩
    constructor
    · exact List.mem_map_of_mem toEpisode (List.mem_filter.2 ⟨h6, hvalid⟩)
    · have hz : r ∈ (((((rows.filter (fun r => r.season_num.isSome)).filter
          (fun r => r.season_num.getD 0 != 0)).filter
          (fun r => r.episode_num.isSome)).filter (fun r => r.avg_rating.isSome)).filter
          (fun r => r.num_votes.isSome)).filter (fun r => r.num_votes.getD 0 == 0) := by
        refine List.mem_filter.2 ⟨h6, ?_⟩
        rw [hv]
        rfl
      have hpos := List.length_pos.2 (List.ne_nil_of_mem hz)
      exact hpos
  · intro eps sqlWr h
    simp [buildWeightedRatingCheck, h]

theorem claim_C5_amended_witness :
    toEpisode c5ZeroVoteRow ∈ (cleanSampleEpisodes c5ValidTconsts [c5ZeroVoteRow]).1 ∧
      1 ≤ (cleanSampleEpisodes c5ValidTconsts [c5ZeroVoteRow]).2 :=
  claim_C5_amended.1 c5ValidTconsts [c5ZeroVoteRow] c5ZeroVoteRow (by decide) (by decide)
    (by decide) (by decide) (by decide) (by decide) (by decide)

/- ── Shark-jump detection: validator vs spec scan (claims C1-C3) ────── -/

theorem firstAdjacentBelowPair_nil (allSeasons : List Int) :
    firstAdjacentBelowPair allSeasons [] = none :=
  rfl

theorem firstAdjacentBelowPair_single (allSeasons : List Int) (s : Int) :
    firstAdjacentBelowPair allSeasons [s] = none :=
  rfl

theorem adjacentInSeasons_cons {a x : Int} (hne : x ≠ a) (tailS : List Int) (y : Int) :
    adjacentInSeasons (a :: tailS) x y = adjacentInSeasons tailS x y := by
  rw [adjacentInSeasons, adjacentInSeasons, List.indexOf_cons_ne tailS (fun h => hne h.symm),
    Nat.succ_eq_add_one, List.get?_cons_succ]

theorem firstAdjacentBelowPair_cons (a : Int) (tailS : List Int) :
    ∀ bs : List Int, a ∉ bs →
      firstAdjacentBelowPair (a :: tailS) bs = firstAdjacentBelowPair tailS bs
  | [], _ => rfl
  | [_], _ => rfl
  | x :: y :: t, h => by
    have hxa : x ≠ a := fun heq => h (heq ▸ List.mem_cons_self x (y :: t))
    rw [firstAdjacentBelowPair, firstAdjacentBelowPair, adjacentInSeasons_cons hxa]
    split
    · rfl
    · exact firstAdjacentBelowPair_cons a tailS (y :: t)
        (fun hm => h (List.mem_cons_of_mem x hm))

theorem belowSeasons_cons (r : KpiRow) (rows : List KpiRow) :
    belowSeasons (r :: rows) =
      if isBelow r then r.season_num :: belowSeasons rows else belowSeasons rows := by
  rw [belowSeasons, List.filter_cons]
  split
  · rw [List.map_cons, belowSeasons]
  · rw [belowSeasons]

theorem mem_belowSeasons {rows : List KpiRow} {s : Int} (h : s ∈ belowSeasons rows) :
    s ∈ rows.map (·.season_num) := by
  rw [belowSeasons] at h
  obtain ⟨r, hr, hrs⟩ := List.mem_map.1 h
  exact List.mem_map.2 ⟨r, (List.mem_filter.1 hr).1, hrs⟩

theorem specSharkJumpScan_cons_cons (r1 r2 : KpiRow) (rest : List KpiRow) :
    specSharkJumpScan (r1 :: r2 :: rest) =
      if isBelow r1 && isBelow r2 then some r1.season_num
      else specSharkJumpScan (r2 :: rest) :=
  rfl

theorem expectedSharkJump_eq_specScan :
    ∀ rows : List KpiRow,
      List.Pairwise (fun a b => a.season_num < b.season_num) rows →
      expectedSharkJump rows = specSharkJumpScan rows
  | [], _ => rfl
  | [r], _ => by
    rw [expectedSharkJump, belowSeasons_cons]
    split
    · rfl
    · rfl
  | r1 :: r2 :: rest, h => by
    have h1 : ∀ x ∈ r2 :: rest, r1.season_num < x.season_num :=
      (List.pairwise_cons.1 h).1
    have h2 : List.Pairwise (fun a b => a.season_num < b.season_num) (r2 :: rest) :=
      (List.pairwise_cons.1 h).2
    have h3 : ∀ x ∈ rest, r2.season_num < x.season_num :=
      (List.pairwise_cons.1 h2).1
    have ih := expectedSharkJump_eq_specScan (r2 :: rest) h2
    have hnotmem : r1.season_num ∉ belowSeasons (r2 :: rest) := by
      intro hm
      obtain ⟨x, hx, hxs⟩ := List.mem_map.1 (mem_belowSeasons hm)
      exact absurd (hxs ▸ h1 x hx) (lt_irrefl _)
    rw [expectedSharkJump, belowSeasons_cons, List.map_cons, specSharkJumpScan_cons_cons]
    cases hb1 : isBelow r1 with
    | false =>
      simp only [Bool.false_and, Bool.false_eq_true, if_false]
      rw [firstAdjacentBelowPair_cons r1.season_num _ _ hnotmem, ← expectedSharkJump, ih]
    | true =>
      simp only [Bool.true_and, if_true]
      rw [belowSeasons_cons]
      cases hb2 : isBelow r2 with
      | true =>
        simp only [if_true]
        have hadj : adjacentInSeasons
            (r1.season_num :: List.map (fun x => x.season_num) (r2 :: rest))
            r1.season_num r2.season_num = true := by
          rw [adjacentInSeasons, List.indexOf_cons_self, List.map_cons, List.get?_cons_succ,
            List.get?_cons_zero]
          exact beq_self_eq_true _
        rw [firstAdjacentBelowPair, if_pos hadj]
      | false =>
        simp only [Bool.false_eq_true, if_false]
        have hbs2 : belowSeasons (r2 :: rest) = belowSeasons rest := by
          rw [belowSeasons_cons, hb2]
          simp only [Bool.false_eq_true, if_false]
        cases hbs : belowSeasons rest with
        | nil =>
          rw [firstAdjacentBelowPair_single, ← ih, expectedSharkJump, hbs2, hbs,
            firstAdjacentBelowPair_nil]
        | cons s' bs =>
          have hs'r : s' ∈ belowSeasons rest := by
            rw [hbs]
            exact List.mem_cons_self s' bs
          have hs'lt : r2.season_num < s' := by
            obtain ⟨x, hx, hxs⟩ := List.mem_map.1 (mem_belowSeasons hs'r)
            exact hxs ▸ h3 x hx
          have hnadj : ¬ adjacentInSeasons
              (r1.season_num :: List.map (fun x => x.season_num) (r2 :: rest))
              r1.season_num s' = true := by
            rw [adjacentInSeasons, List.indexOf_cons_self, List.map_cons, List.get?_cons_succ,
              List.get?_cons_zero]
            simp only [beq_iff_eq, Option.some.injEq]
            exact fun heq => absurd (heq ▸ hs'lt) (lt_irrefl _)
          have hnm : r1.season_num ∉ belowSeasons rest := by
            rw [← hbs2]
            exact hnotmem
          rw [firstAdjacentBelowPair, if_neg hnadj, ← hbs,
            firstAdjacentBelowPair_cons r1.season_num _ _ hnm, ← hbs2, ← expectedSharkJump, ih]

theorem specScan_eq_head_belowPairs :
    ∀ rows : List KpiRow,
      specSharkJumpScan rows = (belowPairs rows).head?.map (fun p => p.1.season_num)
  | [] => rfl
  | [_] => rfl
  | r1 :: r2 :: rest => by
    have ih := specScan_eq_head_belowPairs (r2 :: rest)
    rw [specSharkJumpScan_cons_cons, belowPairs, List.tail_cons, List.zip_cons_cons,
      List.filter_cons]
    split
    · rw [List.head?_cons, Option.map_some']
    · rw [ih, belowPairs, List.tail_cons]

theorem specScan_none_iff (rows : List KpiRow) :
    specSharkJumpScan rows = none ↔
      ∀ p ∈ rows.zip rows.tail, ¬(isBelow p.1 = true ∧ isBelow p.2 = true) := by
  rw [specScan_eq_head_belowPairs, Option.map_eq_none', List.head?_eq_none_iff, belowPairs,
    List.filter_eq_nil_iff]
  constructor
  · intro h p hp hcontra
    exact h p hp (by simp [hcontra.1, hcontra.2])
  · intro h p hp hb
    exact h p hp (by simpa [Bool.and_eq_true] using hb)

theorem specScan_mem :
    ∀ (rows : List KpiRow) (s : Int),
      specSharkJumpScan rows = some s → s ∈ rows.map (·.season_num)
  | [], _, h => Option.noConfusion h
  | [_], _, h => Option.noConfusion h
  | r1 :: r2 :: rest, s, h => by
    rw [specSharkJumpScan_cons_cons] at h
    rw [List.map_cons]
    split at h
    · have h' := Option.some.inj h
      subst h'
      exact List.mem_cons_self _ _
    · exact List.mem_cons_of_mem _ (specScan_mem (r2 :: rest) s h)

/-- C1: on a show's season_num-sorted KPI rows, the validator's reference
reimplementation (Check 19) computes exactly the spec value: the earlier
season number of the FIRST positionally adjacent pair of "below" seasons,
and null exactly when no such pair exists. -/
theorem claim_C1_first_below_pair (rows : List KpiRow)
    (h : List.Pairwise (fun a b => a.season_num < b.season_num) rows) :
    expectedSharkJump rows = specSharkJumpScan rows ∧
    specSharkJumpScan rows = (belowPairs rows).head?.map (fun p => p.1.season_num) ∧
    (specSharkJumpScan rows = none ↔
      ∀ p ∈ rows.zip rows.tail, ¬(isBelow p.1 = true ∧ isBelow p.2 = true)) :=
  ⟨expectedSharkJump_eq_specScan rows h, specScan_eq_head_belowPairs rows,
   specScan_none_iff rows⟩

theorem claim_C1_witness :
    List.Pairwise (fun a b => a.season_num < b.season_num) c1Rows ∧
      expectedSharkJump c1Rows = specSharkJumpScan c1Rows :=
  ⟨by decide, (claim_C1_first_below_pair c1Rows (by decide)).1⟩

/-- C2 counterexample: in `gapRows` the seasons are 1, 2, 4, 5 with exactly
seasons 2 and 4 below; the pair (2, 4) is adjacent in the sorted sequence
but its season numbers differ by 2, yet the validator's reference
reimplementation triggers on it and reports shark_jump_season = 2. -/
theorem claim_C2_counterexample :
    belowSeasons gapRows = [2, 4] ∧
    expectedSharkJump gapRows = some 2 ∧
    specSharkJumpScan gapRows = some 2 ∧
    (4 : Int) - 2 ≠ 1 :=
  ⟨by decide, by decide, by decide, by decide⟩

/-- C2 (amended): a pair of "below" seasons qualifies exactly when the two
rows are adjacent in the season_num-sorted sequence — positional adjacency,
with no requirement that the season numbers differ by exactly 1: any
adjacent below pair makes the detection non-null, numbering gap or not. -/
theorem claim_C2_adjacency_is_positional (rows : List KpiRow)
    (h : List.Pairwise (fun a b => a.season_num < b.season_num) rows)
    (p : KpiRow × KpiRow) (hp : p ∈ rows.zip rows.tail)
    (h1 : isBelow p.1 = true) (h2 : isBelow p.2 = true) :
    expectedSharkJump rows ≠ none := by
  intro hnone
  rw [expectedSharkJump_eq_specScan rows h, specScan_none_iff] at hnone
  exact hnone p hp ⟨h1, h2⟩

theorem claim_C2_witness :
    expectedSharkJump gapRows ≠ none :=
  claim_C2_adjacency_is_positional gapRows (by decide)
    (⟨2, 4, 4, 5⟩, ⟨4, 4, 4, 5⟩) (by decide) (by decide) (by decide)

/- ── Range and membership of shark_jump_season (claim C3) ───────────── -/

/-- C3 counterexample: a three-season show (ratings 5, 8, 9, equal votes)
whose seasons 1 and 2 are both below the series average: the detection rule
— under the spec's vote-weighted series average and under the simple-mean
variant alike — reports shark_jump_season = 1, which is NOT ≥ 2. -/
theorem claim_C3_counterexample :
    specSharkJumpWeighted c3Episodes = some 1 ∧
    specSharkJumpSimple c3Episodes = some 1 ∧
    ¬(2 ≤ (1 : Int)) := by
  refine ⟨?_, ?_, by decide⟩
  · norm_num [specSharkJumpWeighted, specSeasonKpis, groupBySeason, seriesAvgWeighted,
      weightedRating, sumRatingVotes, sumVotes, rollingAvgs, rollingWindow, qmean,
      specSharkJumpScan, isBelow, c3Episodes, List.range_succ]
  · norm_num [specSharkJumpSimple, specSeasonKpis, groupBySeason, seriesAvgSimple,
      weightedRating, sumRatingVotes, sumVotes, rollingAvgs, rollingWindow, qmean,
      specSharkJumpScan, isBelow, c3Episodes, List.range_succ]

/-- C3 (amended): a non-null shark_jump_season is always one of the show's
actual season numbers, but it can be as small as the show's first season;
the validator accepts a non-null value only when it is ≥ 3, and the QA
workbook flags the values 1 and 2 as suspicious. -/
theorem claim_C3_membership_and_guards :
    (∀ (rows : List KpiRow) (s : Int),
      specSharkJumpScan rows = some s → s ∈ rows.map (·.season_num)) ∧
    (∀ sj : Option Int,
      sharkSeasonValueCheck sj = true ↔ sj = none ∨ ∃ s, sj = some s ∧ 3 ≤ s) ∧
    (∀ sj : Option Int,
      flagSuspicious sj = true ↔ sj = some 1 ∨ sj = some 2) := by
  refine ⟨specScan_mem, ?_, ?_⟩
  · intro sj
    cases sj with
    | none => simp [sharkSeasonValueCheck]
    | some s => simp [sharkSeasonValueCheck]
  · intro sj
    cases sj with
    | none => simp [flagSuspicious]
    | some s => simp [flagSuspicious]

theorem claim_C3_witness :
    (1 : Int) ∈ c3Rows.map (·.season_num) :=
  claim_C3_membership_and_guards.1 c3Rows 1 (by decide)

/- ── Weighted-rating bounds (claim C8) ──────────────────────────────── -/

theorem sumRatingVotes_bounds (eps : List Episode)
    (h : ∀ e ∈ eps, 1 ≤ e.avg_rating ∧ e.avg_rating ≤ 10 ∧ 0 ≤ e.num_votes) :
    ((sumVotes eps : ℚ)) ≤ sumRatingVotes eps ∧
      sumRatingVotes eps ≤ 10 * ((sumVotes eps : ℚ)) := by
  induction eps with
  | nil => simp [sumVotes, sumRatingVotes]
  | cons e t ih =>
    have he := h e (List.mem_cons_self e t)
    have iht := ih (fun x hx => h x (List.mem_cons_of_mem e hx))
    have hv : (0 : ℚ) ≤ (e.num_votes : ℚ) := by exact_mod_cast he.2.2
    have hlow : (e.num_votes : ℚ) ≤ e.avg_rating * (e.num_votes : ℚ) :=
      le_mul_of_one_le_left hv he.1
    have hhigh : e.avg_rating * (e.num_votes : ℚ) ≤ 10 * (e.num_votes : ℚ) :=
      mul_le_mul_of_nonneg_right he.2.1 hv
    simp only [sumVotes, sumRatingVotes, List.map_cons, List.sum_cons] at iht ⊢
    push_cast
    push_cast at iht
    constructor
    · linarith [iht.1]
    · linarith [iht.2]

/-- C8: for a non-empty season whose episode ratings all lie in [1, 10] and
whose vote counts are non-negative with a positive total, the vote-weighted
mean Σ(rating×votes)/Σ(votes) lies in [1.0, 10.0]. -/
theorem claim_C8_weighted_rating_bounds (eps : List Episode)
    (_hne : eps ≠ [])
    (h : ∀ e ∈ eps, 1 ≤ e.avg_rating ∧ e.avg_rating ≤ 10 ∧ 0 ≤ e.num_votes)
    (hpos : 0 < sumVotes eps) :
    1 ≤ weightedRating eps ∧ weightedRating eps ≤ 10 := by
  have hq : (0 : ℚ) < ((sumVotes eps : ℚ)) := by exact_mod_cast hpos
  have hb := sumRatingVotes_bounds eps h
  constructor
  · rw [weightedRating]
    exact (one_le_div hq).2 hb.1
  · rw [weightedRating]
    rw [div_le_iff₀ hq]
    exact hb.2

theorem claim_C8_witness :
    0 < sumVotes c8Episodes ∧
      (1 ≤ weightedRating c8Episodes ∧ weightedRating c8Episodes ≤ 10) :=
  ⟨by decide, claim_C8_weighted_rating_bounds c8Episodes (by decide) (by decide) (by decide)⟩

/- ── The Family Guy fixture scenario (claim C7) ─────────────────────── -/

/-- C7 counterexample: on the idealised Family Guy fixture (every episode
exactly at its season's target rating with the base vote count), the
detection rule with the spec's vote-weighted series average does NOT yield
null — seasons 1 and 2 (ratings 8.2 and rolling 8.35) both fall below the
vote-weighted series average 11143/1330 ≈ 8.378, so it triggers at
season 1. -/
theorem claim_C7_counterexample :
    specSharkJumpWeighted famGuyIdeal = some 1 := by
  norm_num [specSharkJumpWeighted, specSeasonKpis, groupBySeason, seriesAvgWeighted,
    weightedRating, sumRatingVotes, sumVotes, rollingAvgs, rollingWindow, qmean,
    specSharkJumpScan, isBelow, famGuyIdeal, idealShowEpisodes, idealSeasonEpisodes,
    familyGuySeasons, synthTconst, pad4, List.range_succ, Function.comp_def]

/-- C7 (amended): the Family Guy fixture's designed no-trigger outcome holds
when `series_avg` is the simple (unweighted) mean of the per-season weighted
ratings — the formula that reproduces all four designed fixture outcomes —
under which no two adjacent seasons are both below and the shark-jump
season is null. -/
theorem claim_C7_simple_mean_null :
    specSharkJumpSimple famGuyIdeal = none := by
  norm_num [specSharkJumpSimple, specSeasonKpis, groupBySeason, seriesAvgSimple,
    weightedRating, sumRatingVotes, sumVotes, rollingAvgs, rollingWindow, qmean,
    specSharkJumpScan, isBelow, famGuyIdeal, idealShowEpisodes, idealSeasonEpisodes,
    familyGuySeasons, synthTconst, pad4, List.range_succ, Function.comp_def]

/-- On the idealised fixtures, the simple-mean series average reproduces the
three non-null designed outcomes documented in `generate_synthetic.py`
(Simpsons S6, SpongeBob S5, Walking Dead S5); together with
`claim_C7_simple_mean_null` this is all four designed outcomes. -/
theorem simpleMean_reproduces_designed_outcomes :
    specSharkJumpSimple simpsonsIdeal = some 6 ∧
    specSharkJumpSimple spongebobIdeal = some 5 ∧
    specSharkJumpSimple twdIdeal = some 5 := by
  refine ⟨?_, ?_, ?_⟩
  · norm_num [specSharkJumpSimple, specSeasonKpis, groupBySeason, seriesAvgSimple,
      weightedRating, sumRatingVotes, sumVotes, rollingAvgs, rollingWindow, qmean,
      specSharkJumpScan, isBelow, simpsonsIdeal, idealShowEpisodes, idealSeasonEpisodes,
      simpsonsSeasons, synthTconst, pad4, List.range_succ, Function.comp_def]
  · norm_num [specSharkJumpSimple, specSeasonKpis, groupBySeason, seriesAvgSimple,
      weightedRating, sumRatingVotes, sumVotes, rollingAvgs, rollingWindow, qmean,
      specSharkJumpScan, isBelow, spongebobIdeal, idealShowEpisodes, idealSeasonEpisodes,
      spongebobSeasons, synthTconst, pad4, List.range_succ, Function.comp_def]
  · norm_num [specSharkJumpSimple, specSeasonKpis, groupBySeason, seriesAvgSimple,
      weightedRating, sumRatingVotes, sumVotes, rollingAvgs, rollingWindow, qmean,
      specSharkJumpScan, isBelow, twdIdeal, idealShowEpisodes, idealSeasonEpisodes,
      twdSeasons, synthTconst, pad4, List.range_succ, Function.comp_def]

/- ── Synthetic generator properties (claim C10) ─────────────────────── -/

theorem synthTconst_tag (n : Nat) :
    ("tt999").data.isPrefixOf (synthTconst n).data = true := by
  rw [synthTconst, String.data_append]
  exact List.isPrefixOf_iff_prefix.2 (List.prefix_append _ _)

theorem clipRating_bounds (x : ℚ) : 1 ≤ clipRating x ∧ clipRating x ≤ 10 := by
  rw [clipRating]
  exact ⟨le_min (by norm_num) (le_max_left 1 x), min_le_left 10 _⟩

theorem drawVotes_lb (vd : Nat → Nat) (k base : Nat) : 500 ≤ drawVotes vd k base := by
  rw [drawVotes, voteLo]
  exact le_trans (le_max_left _ _) (Nat.le_add_right _ _)

theorem mkSeasonEpisodes_rowOk (tc : String) (sn c0 : Nat) (cfg : Nat × ℚ × Nat)
    (rd : Nat → ℚ) (vd : Nat → Nat) (hsn : 1 ≤ sn) :
    ∀ e ∈ mkSeasonEpisodes tc sn c0 cfg rd vd, generatedRowOk e = true := by
  intro e he
  rw [mkSeasonEpisodes] at he
  obtain ⟨j, _, rfl⟩ := List.mem_map.1 he
  rw [generatedRowOk]
  simp only [Bool.and_eq_true, decide_eq_true_eq]
  refine ⟨⟨⟨⟨⟨synthTconst_tag _, (clipRating_bounds _).1⟩, (clipRating_bounds _).2⟩, ?_⟩,
    ?_⟩, ?_⟩
  · exact_mod_cast drawVotes_lb vd (c0 + j) cfg.2.2
  · exact_mod_cast hsn
  · exact_mod_cast Nat.succ_le_succ (Nat.zero_le j)

theorem mkShowEpisodes_rowOk (tc : String) (rd : Nat → ℚ) (vd : Nat → Nat) :
    ∀ (cfgs : List (Nat × ℚ × Nat)) (sn c0 : Nat), 1 ≤ sn →
      ∀ e ∈ mkShowEpisodes tc rd vd sn c0 cfgs, generatedRowOk e = true := by
  intro cfgs
  induction cfgs with
  | nil =>
    intro sn c0 _ e he
    rw [mkShowEpisodes] at he
    exact absurd he (List.not_mem_nil e)
  | cons cfg rest ih =>
    intro sn c0 hsn e he
    rw [mkShowEpisodes] at he
    rcases List.mem_append.1 he with h | h
    · exact mkSeasonEpisodes_rowOk tc sn c0 cfg rd vd hsn e h
    · exact ih (sn + 1) (c0 + cfg.1) (le_trans hsn (Nat.le_succ sn)) e h

theorem mkAllEpisodes_rowOk (rd : Nat → ℚ) (vd : Nat → Nat) :
    ∀ (shows : List (String × List (Nat × ℚ × Nat))) (c0 : Nat),
      ∀ e ∈ mkAllEpisodes rd vd c0 shows, generatedRowOk e = true := by
  intro shows
  induction shows with
  | nil =>
    intro c0 e he
    rw [mkAllEpisodes] at he
    exact absurd he (List.not_mem_nil e)
  | cons p rest ih =>
    obtain ⟨tc, cfgs⟩ := p
    intro c0 e he
    rw [mkAllEpisodes] at he
    rcases List.mem_append.1 he with h | h
    · exact mkShowEpisodes_rowOk tc rd vd cfgs 1 c0 le_rfl e h
    · exact ih _ e h

theorem showEpisodeCount_cons (cfg : Nat × ℚ × Nat) (rest : List (Nat × ℚ × Nat)) :
    showEpisodeCount (cfg :: rest) = cfg.1 + showEpisodeCount rest := by
  rw [showEpisodeCount, List.map_cons, List.sum_cons, showEpisodeCount]

theorem map_tconst_mkSeasonEpisodes (tc : String) (sn c0 : Nat) (cfg : Nat × ℚ × Nat)
    (rd : Nat → ℚ) (vd : Nat → Nat) :
    (mkSeasonEpisodes tc sn c0 cfg rd vd).map (·.episode_tconst)
      = (List.range' c0 cfg.1).map synthTconst := by
  rw [mkSeasonEpisodes, List.map_map, List.range'_eq_map_range, List.map_map]
  rfl

theorem map_tconst_mkShowEpisodes (tc : String) (rd : Nat → ℚ) (vd : Nat → Nat) :
    ∀ (cfgs : List (Nat × ℚ × Nat)) (sn c0 : Nat),
      (mkShowEpisodes tc rd vd sn c0 cfgs).map (·.episode_tconst)
        = (List.range' c0 (showEpisodeCount cfgs)).map synthTconst := by
  intro cfgs
  induction cfgs with
  | nil =>
    intro sn c0
    rw [mkShowEpisodes, showEpisodeCount]
    rfl
  | cons cfg rest ih =>
    intro sn c0
    rw [mkShowEpisodes, List.map_append, map_tconst_mkSeasonEpisodes, ih (sn + 1) (c0 + cfg.1),
      ← List.map_append, List.range'_append_1, showEpisodeCount_cons,
      Nat.add_comm (showEpisodeCount rest) cfg.1]

theorem allEpisodeCount_cons (p : String × List (Nat × ℚ × Nat))
    (rest : List (String × List (Nat × ℚ × Nat))) :
    allEpisodeCount (p :: rest) = showEpisodeCount p.2 + allEpisodeCount rest := by
  rw [allEpisodeCount, List.map_cons, List.sum_cons, allEpisodeCount]

theorem map_tconst_mkAllEpisodes (rd : Nat → ℚ) (vd : Nat → Nat) :
    ∀ (shows : List (String × List (Nat × ℚ × Nat))) (c0 : Nat),
      (mkAllEpisodes rd vd c0 shows).map (·.episode_tconst)
        = (List.range' c0 (allEpisodeCount shows)).map synthTconst := by
  intro shows
  induction shows with
  | nil =>
    intro c0
    rw [mkAllEpisodes, allEpisodeCount]
    rfl
  | cons p rest ih =>
    obtain ⟨tc, cfgs⟩ := p
    intro c0
    rw [mkAllEpisodes, List.map_append, map_tconst_mkShowEpisodes, ih,
      ← List.map_append, List.range'_append_1, allEpisodeCount_cons,
      Nat.add_comm (allEpisodeCount rest)]

theorem map_tconst_generateEpisodes (rd : Nat → ℚ) (vd : Nat → Nat) :
    (generateEpisodes rd vd).map (·.episode_tconst)
      = (List.range' 1 175).map synthTconst := by
  rw [generateEpisodes, map_tconst_mkAllEpisodes]
  have h175 : allEpisodeCount SHOW_SEASONS = 175 := rfl
  rw [h175]

theorem digitChar_inj : ∀ a < 10, ∀ b < 10, Nat.digitChar a = Nat.digitChar b → a = b := by
  decide

theorem pad4_inj {m n : Nat} (hm : m < 10000) (hn : n < 10000) (h : pad4 m = pad4 n) :
    m = n := by
  rw [pad4, pad4] at h
  have hd : [Nat.digitChar (m / 1000 % 10), Nat.digitChar (m / 100 % 10),
      Nat.digitChar (m / 10 % 10), Nat.digitChar (m % 10)]
      = [Nat.digitChar (n / 1000 % 10), Nat.digitChar (n / 100 % 10),
        Nat.digitChar (n / 10 % 10), Nat.digitChar (n % 10)] :=
    congrArg String.data h
  injection hd with e1 hd1
  injection hd1 with e2 hd2
  injection hd2 with e3 hd3
  injection hd3 with e4 _
  have d1 := digitChar_inj _ (Nat.mod_lt _ (by omega)) _ (Nat.mod_lt _ (by omega)) e1
  have d2 := digitChar_inj _ (Nat.mod_lt _ (by omega)) _ (Nat.mod_lt _ (by omega)) e2
  have d3 := digitChar_inj _ (Nat.mod_lt _ (by omega)) _ (Nat.mod_lt _ (by omega)) e3
  have d4 := digitChar_inj _ (Nat.mod_lt _ (by omega)) _ (Nat.mod_lt _ (by omega)) e4
  omega

theorem synthTconst_inj {m n : Nat} (hm : m < 10000) (hn : n < 10000)
    (h : synthTconst m = synthTconst n) : m = n := by
  rw [synthTconst, synthTconst] at h
  have hd : ("tt999").data ++ (pad4 m).data = ("tt999").data ++ (pad4 n).data := by
    rw [← String.data_append, ← String.data_append, h]
  have hpd : (pad4 m).data = (pad4 n).data := by
    have := List.append_cancel_left hd
    exact this
  exact pad4_inj hm hn (String.ext hpd)

theorem nodup_synthTconst_range : ((List.range' 1 175).map synthTconst).Nodup := by
  refine List.Nodup.map_on ?_ (List.nodup_range' 1 175)
  intro x hx y hy hxy
  rw [List.mem_range'_1] at hx hy
  exact synthTconst_inj (by omega) (by omega) hxy

/-- C10: for every realisation of the RNG draws, every episode row produced
by `generate_episodes` has a unique "tt999"-prefixed id, a rating clipped
into [1, 10], at least 500 votes, and 1-based season and episode numbers;
consequently the Phase 1 rating-range, vote-range, uniqueness and
fabrication checks all pass on the generated table. -/
theorem claim_C10_generator (rd : Nat → ℚ) (vd : Nat → Nat) :
    (∀ e ∈ generateEpisodes rd vd, generatedRowOk e = true) ∧
    ((generateEpisodes rd vd).map (·.episode_tconst)).Nodup ∧
    ratingRangeCheck (generateEpisodes rd vd) = true ∧
    votesRangeCheck (generateEpisodes rd vd) = true ∧
    uniqueTconstCheck (generateEpisodes rd vd) = true ∧
    fabricationCheck (generateEpisodes rd vd) = true := by
  have hok : ∀ e ∈ generateEpisodes rd vd, generatedRowOk e = true :=
    fun e he => mkAllEpisodes_rowOk rd vd SHOW_SEASONS 1 e he
  have hdecomp : ∀ e ∈ generateEpisodes rd vd,
      ("tt999").data.isPrefixOf e.episode_tconst.data = true ∧
      (1 ≤ e.avg_rating ∧ e.avg_rating ≤ 10) ∧ 500 ≤ e.num_votes := by
    intro e he
    have h := hok e he
    rw [generatedRowOk] at h
    simp only [Bool.and_eq_true, decide_eq_true_eq] at h
    exact ⟨h.1.1.1.1.1, ⟨h.1.1.1.1.2, h.1.1.1.2⟩, h.1.1.2⟩
  have hnodup : ((generateEpisodes rd vd).map (·.episode_tconst)).Nodup := by
    rw [map_tconst_generateEpisodes]
    exact nodup_synthTconst_range
  refine ⟨hok, hnodup, ?_, ?_, ?_, ?_⟩
  · rw [ratingRangeCheck, List.all_eq_true]
    intro e he
    simp only [Bool.and_eq_true, decide_eq_true_eq]
    exact (hdecomp e he).2.1
  · rw [votesRangeCheck, List.all_eq_true]
    intro e he
    simp only [decide_eq_true_eq]
    have := (hdecomp e he).2.2
    omega
  · rw [uniqueTconstCheck, List.dedup_eq_self.2 hnodup]
    exact beq_self_eq_true _
  · rw [fabricationCheck, List.all_eq_true]
    intro e he
    exact (hdecomp e he).1

theorem claim_C10_witness :
    ratingRangeCheck (generateEpisodes (fun _ => 0) (fun _ => 0)) = true ∧
    uniqueTconstCheck (generateEpisodes (fun _ => 0) (fun _ => 0)) = true :=
  ⟨(claim_C10_generator (fun _ => 0) (fun _ => 0)).2.2.1,
   (claim_C10_generator (fun _ => 0) (fun _ => 0)).2.2.2.2.1⟩

/-- For contrast, the spec's vote-weighted series average reproduces none of
the three non-null designed outcomes (it yields S5, S4, S4 instead of the
designed S6, S5, S5). -/
theorem voteWeighted_shifts_designed_outcomes :
    specSharkJumpWeighted simpsonsIdeal = some 5 ∧
    specSharkJumpWeighted spongebobIdeal = some 4 ∧
    specSharkJumpWeighted twdIdeal = some 4 := by
  refine ⟨?_, ?_, ?_⟩
  · norm_num [specSharkJumpWeighted, specSeasonKpis, groupBySeason, seriesAvgWeighted,
      weightedRating, sumRatingVotes, sumVotes, rollingAvgs, rollingWindow, qmean,
      specSharkJumpScan, isBelow, simpsonsIdeal, idealShowEpisodes, idealSeasonEpisodes,
      simpsonsSeasons, synthTconst, pad4, List.range_succ, Function.comp_def]
  · norm_num [specSharkJumpWeighted, specSeasonKpis, groupBySeason, seriesAvgWeighted,
      weightedRating, sumRatingVotes, sumVotes, rollingAvgs, rollingWindow, qmean,
      specSharkJumpScan, isBelow, spongebobIdeal, idealShowEpisodes, idealSeasonEpisodes,
      spongebobSeasons, synthTconst, pad4, List.range_succ, Function.comp_def]
  · norm_num [specSharkJumpWeighted, specSeasonKpis, groupBySeason, seriesAvgWeighted,
      weightedRating, sumRatingVotes, sumVotes, rollingAvgs, rollingWindow, qmean,
      specSharkJumpScan, isBelow, twdIdeal, idealShowEpisodes, idealSeasonEpisodes,
      twdSeasons, synthTconst, pad4, List.range_succ, Function.comp_def]

end TvDropoff
